import Mathlib

/-!
Shallow embedding of the decision core of the solana-scalper repository.

Sources embedded here:
- `src/strategies/meme-scalp.js`: cooldown ledger (`isTokenOnCooldown`,
  `recordTokenLoss`), configuration (`CONFIG`), market-regime check
  (`checkMarketRegime`), dynamic slippage tiers (`getSlippage`), round-trip
  slippage quoting (`getRealSlippageCost`) and the slippage gate inside
  `scan`, the scoring contributions of `scorePair`, and the position exit
  logic (`checkExit`).
- `src/meme-scalp.js`: the paper-mode ledger (`executeSell`) and the peak
  write-back in `checkPositions`.
- `src/core/executor.js`: the slippage-retry coordinator
  (`executeSwapNativeSolana`).

Numbers that the JavaScript source holds as floating-point values are
modelled as rationals; timestamps (milliseconds) as integers. External
collaborators (price feed, quote provider, wallet) are modelled as explicit
inputs; their thrown exceptions are modelled as values, matching the
source's catch-all handlers.
-/

namespace SolanaScalper

/-- Exit reasons produced by `checkExit` in `src/strategies/meme-scalp.js`. -/
inductive ExitReason where
  | STOP_LOSS
  | TAKE_PROFIT
  | TRAILING_STOP
  | MAX_HOLD_TIME
  deriving DecidableEq

/-- One entry of `CONFIG.slippageRules`; `maxLiquidity = none` models the
source's `Infinity` bound on the last rule. -/
structure SlippageRule where
  maxLiquidity : Option ℚ
  slippage : ℚ
  deriving DecidableEq

/-- The configuration fields of `CONFIG` in `src/strategies/meme-scalp.js`
that the embedded decision core reads. -/
structure Config where
  minLiquidityUsd : ℚ
  maxLiquidityUsd : ℚ
  minPriceChange5m : ℚ
  maxPriceChange5m : ℚ
  marketRegimeEnabled : Bool
  minSol1hChange : ℚ
  minSol5mChange : ℚ
  regimeCacheSecs : ℤ
  tokenCooldownMs : ℤ
  maxLossesPerToken : ℕ
  extendedCooldownMs : ℤ
  takeProfitPct : ℚ
  stopLossPct : ℚ
  trailingActivatePct : ℚ
  trailingDistancePct : ℚ
  maxHoldTimeMs : ℤ
  slippageRules : List SlippageRule

/-- The V5.1 configuration values of `CONFIG` in
`src/strategies/meme-scalp.js`. -/
def CONFIG : Config where
  minLiquidityUsd := 20000
  maxLiquidityUsd := 2000000
  minPriceChange5m := 2
  maxPriceChange5m := 50
  marketRegimeEnabled := true
  minSol1hChange := -2
  minSol5mChange := -3/2
  regimeCacheSecs := 60
  tokenCooldownMs := 60 * 60 * 1000
  maxLossesPerToken := 2
  extendedCooldownMs := 4 * 60 * 60 * 1000
  takeProfitPct := 5
  stopLossPct := 4
  trailingActivatePct := 3
  trailingDistancePct := 3/2
  maxHoldTimeMs := 90 * 1000
  slippageRules :=
    [⟨some 50000, 5⟩, ⟨some 100000, 7/2⟩, ⟨some 200000, 5/2⟩, ⟨none, 2⟩]

/-- The position fields read by `checkExit` and the caller's peak
write-back. -/
structure Position where
  entryPrice : ℚ
  entryTime : ℤ
  peakPrice : ℚ
  deriving DecidableEq

/-- The return value of `checkExit`: `newPeak` is present only on the
no-exit branch, matching the source object literals. -/
structure ExitCheck where
  shouldExit : Bool
  reason : Option ExitReason
  pnlPct : ℚ
  newPeak : Option ℚ
  deriving DecidableEq

/-- `checkExit` from `src/strategies/meme-scalp.js` (lines 581-616).
`now` stands for `Date.now()`.  The source's `position.peakPrice ||
entryPrice` is the JavaScript falsy-or, which falls back to `entryPrice`
when `peakPrice` is `0`. -/
def checkExit (cfg : Config) (position : Position) (now : ℤ) (currentPrice : ℚ) : ExitCheck :=
  let entryPrice := position.entryPrice
  let pnlPct := (currentPrice - entryPrice) / entryPrice * 100
  let holdTimeMs := now - position.entryTime
  let peak := if position.peakPrice = 0 then entryPrice else position.peakPrice
  let fromPeak := (currentPrice - peak) / peak * 100
  if pnlPct ≤ -cfg.stopLossPct then
    ⟨true, some ExitReason.STOP_LOSS, pnlPct, none⟩
  else if pnlPct ≥ cfg.takeProfitPct then
    ⟨true, some ExitReason.TAKE_PROFIT, pnlPct, none⟩
  else if pnlPct ≥ cfg.trailingActivatePct ∧ fromPeak ≤ -cfg.trailingDistancePct then
    ⟨true, some ExitReason.TRAILING_STOP, pnlPct, none⟩
  else if holdTimeMs ≥ cfg.maxHoldTimeMs then
    ⟨true, some ExitReason.MAX_HOLD_TIME, pnlPct, none⟩
  else
    ⟨false, none, pnlPct, some (if currentPrice > peak then currentPrice else peak)⟩

/-- C1: `checkExit` returns at most one exit reason, chosen by the fixed
priority order stop loss, take profit, trailing stop, max hold time; the
STOP_LOSS reason is returned iff `pnlPct = (current - entry)/entry * 100`
is at most `-stopLossPct`, inclusive exactly at the boundary. -/
theorem checkExit_exit_priority (cfg : Config) (position : Position) (now : ℤ)
    (currentPrice : ℚ) :
    let r := checkExit cfg position now currentPrice
    let p := (currentPrice - position.entryPrice) / position.entryPrice * 100
    let peak := if position.peakPrice = 0 then position.entryPrice else position.peakPrice
    let fp := (currentPrice - peak) / peak * 100
    (r.reason = some ExitReason.STOP_LOSS ↔ p ≤ -cfg.stopLossPct) ∧
    (r.reason = some ExitReason.TAKE_PROFIT ↔
      ¬ p ≤ -cfg.stopLossPct ∧ p ≥ cfg.takeProfitPct) ∧
    (r.reason = some ExitReason.TRAILING_STOP ↔
      ¬ p ≤ -cfg.stopLossPct ∧ ¬ p ≥ cfg.takeProfitPct ∧
        (p ≥ cfg.trailingActivatePct ∧ fp ≤ -cfg.trailingDistancePct)) ∧
    (r.reason = some ExitReason.MAX_HOLD_TIME ↔
      ¬ p ≤ -cfg.stopLossPct ∧ ¬ p ≥ cfg.takeProfitPct ∧
        ¬ (p ≥ cfg.trailingActivatePct ∧ fp ≤ -cfg.trailingDistancePct) ∧
        now - position.entryTime ≥ cfg.maxHoldTimeMs) ∧
    (r.shouldExit = true ↔ r.reason ≠ none) := by
  simp only [checkExit]
  split_ifs with h1 h2 h3 h4 <;> simp_all

/-- The per-token record held in `tokenLossMemory`
(`src/strategies/meme-scalp.js`, line 16). -/
structure LossRecord where
  losses : ℕ
  lastLossTime : ℤ
  deriving DecidableEq

/-- `isTokenOnCooldown` from `src/strategies/meme-scalp.js` (lines 21-41),
viewed at a single token: the input is the token's entry in
`tokenLossMemory` (or `none`), and the second component of the result is
that entry after the call (the source deletes it when the window has
elapsed). -/
def isTokenOnCooldown (cfg : Config) (memory : Option LossRecord) (now : ℤ) :
    Bool × Option LossRecord :=
  match memory with
  | none => (false, none)
  | some m =>
    let cooldownMs :=
      if m.losses ≥ cfg.maxLossesPerToken then cfg.extendedCooldownMs
      else cfg.tokenCooldownMs
    let cooldownEnds := m.lastLossTime + cooldownMs
    if now < cooldownEnds then (true, some m) else (false, none)

/-- `recordTokenLoss` from `src/strategies/meme-scalp.js` (lines 46-52) at a
single token: increments the loss counter (starting from the default record
`{ losses: 0, lastLossTime: 0 }` when absent) and stamps the current time. -/
def recordTokenLoss (memory : Option LossRecord) (now : ℤ) : LossRecord :=
  let m := memory.getD ⟨0, 0⟩
  ⟨m.losses + 1, now⟩

/-- C2: for a token with a record, `isTokenOnCooldown` uses the extended
window iff `losses ≥ maxLossesPerToken` (so at `losses = maxLossesPerToken
- 1` the base window still applies), returns true iff `now < lastLossTime +
window` keeping the record, and deletes the record once the window has
elapsed; with no record it returns false. -/
theorem isTokenOnCooldown_spec (cfg : Config) (m : LossRecord) (now : ℤ) :
    (isTokenOnCooldown cfg none now = (false, none)) ∧
    (let w := if m.losses ≥ cfg.maxLossesPerToken then cfg.extendedCooldownMs
              else cfg.tokenCooldownMs
     isTokenOnCooldown cfg (some m) now =
       if now < m.lastLossTime + w then (true, some m) else (false, none)) ∧
    (m.losses + 1 = cfg.maxLossesPerToken →
      isTokenOnCooldown cfg (some m) now =
        if now < m.lastLossTime + cfg.tokenCooldownMs then (true, some m)
        else (false, none)) := by
  refine ⟨rfl, rfl, fun h => ?_⟩
  have hlt : ¬ m.losses ≥ cfg.maxLossesPerToken := by omega
  simp [isTokenOnCooldown, hlt]

/-- Witness for `isTokenOnCooldown_spec`: a token with one loss (one below
`CONFIG.maxLossesPerToken = 2`) recorded at time 0 uses the base one-hour
window, so it is still on cooldown at `now = 100`. -/
theorem isTokenOnCooldown_spec_witness :
    isTokenOnCooldown CONFIG (some ⟨1, 0⟩) 100 = (true, some ⟨1, 0⟩) := by
  have h := (isTokenOnCooldown_spec CONFIG ⟨1, 0⟩ 100).2.2 (by decide)
  simpa [CONFIG] using h

/-- The liquidity contribution of `scorePair`
(`src/strategies/meme-scalp.js`, lines 520-526). -/
def liquidityScore (cfg : Config) (liquidity : ℚ) : ℚ :=
  if liquidity ≥ cfg.minLiquidityUsd ∧ liquidity ≤ cfg.maxLiquidityUsd then 15
  else if liquidity ≥ cfg.minLiquidityUsd * (1/2) then 5
  else 0

/-- C4 counterexample: the claim says the liquidity contribution is 0 for
liquidity above `maxLiquidityUsd`, but at L = 3,000,000 (above the
2,000,000 cap) the `else if` branch still awards 5 points. -/
theorem liquidityScore_above_max_cex :
    CONFIG.maxLiquidityUsd < 3000000 ∧ liquidityScore CONFIG 3000000 = 5 := by
  constructor
  · norm_num [CONFIG]
  · norm_num [liquidityScore, CONFIG]

/-- C4 amended, at the V5.1 configuration (`minLiquidityUsd = 20000`,
`maxLiquidityUsd = 2000000`): the liquidity contribution is 15 iff
`20000 ≤ L ≤ 2000000`, 5 iff L is outside that band but at least
`0.5 * 20000 = 10000` (which includes every L above `maxLiquidityUsd`),
and 0 iff `L < 10000`. -/
theorem liquidityScore_spec (L : ℚ) :
    (liquidityScore CONFIG L = 15 ↔ 20000 ≤ L ∧ L ≤ 2000000) ∧
    (liquidityScore CONFIG L = 5 ↔ ¬ (20000 ≤ L ∧ L ≤ 2000000) ∧ 10000 ≤ L) ∧
    (liquidityScore CONFIG L = 0 ↔ L < 10000) := by
  have hls : liquidityScore CONFIG L =
      if 20000 ≤ L ∧ L ≤ 2000000 then 15 else if 10000 ≤ L then 5 else 0 := by
    simp only [liquidityScore, CONFIG, ge_iff_le]
    norm_num
  rw [hls]
  split_ifs with h1 h2
  · refine ⟨iff_of_true rfl h1, iff_of_false (by norm_num) ?_, iff_of_false (by norm_num) ?_⟩
    · rintro ⟨hn, _⟩
      exact hn h1
    · linarith [h1.1]
  · refine ⟨iff_of_false (by norm_num) h1, iff_of_true rfl ⟨h1, h2⟩,
      iff_of_false (by norm_num) ?_⟩
    linarith
  · push_neg at h2
    refine ⟨iff_of_false (by norm_num) ?_, iff_of_false (by norm_num) ?_, iff_of_true rfl h2⟩
    · rintro ⟨hl, _⟩
      linarith
    · rintro ⟨_, hge⟩
      linarith

/-- The 5-minute momentum contribution of `scorePair`
(`src/strategies/meme-scalp.js`, lines 534-541). -/
def momentum5mScore (cfg : Config) (priceChange5m : ℚ) : ℚ :=
  if priceChange5m ≥ cfg.minPriceChange5m ∧ priceChange5m ≤ cfg.maxPriceChange5m then
    20 + min priceChange5m 20
  else if priceChange5m > 0 then 10
  else 0

/-- C5 counterexample: the claim says the momentum contribution is 0 for a
5-minute change above `maxPriceChange5m`, but at c = 60 (above the cap of
50) the `else if priceChange5m > 0` branch still awards 10 points. -/
theorem momentum5mScore_above_max_cex :
    CONFIG.maxPriceChange5m < 60 ∧ momentum5mScore CONFIG 60 = 10 := by
  constructor
  · norm_num [CONFIG]
  · norm_num [momentum5mScore, CONFIG]

/-- C5 amended, at the V5.1 configuration (`minPriceChange5m = 2`,
`maxPriceChange5m = 50`): the momentum contribution is `20 + min(c, 20)`
(hence between 22 and 40) when `2 ≤ c ≤ 50`, is 10 iff c is positive and
outside that band (which includes every c above 50), and is 0 iff
`c ≤ 0`. -/
theorem momentum5mScore_spec (c : ℚ) :
    (2 ≤ c ∧ c ≤ 50 →
      momentum5mScore CONFIG c = 20 + min c 20 ∧
        22 ≤ momentum5mScore CONFIG c ∧ momentum5mScore CONFIG c ≤ 40) ∧
    (momentum5mScore CONFIG c = 10 ↔ 0 < c ∧ ¬ (2 ≤ c ∧ c ≤ 50)) ∧
    (momentum5mScore CONFIG c = 0 ↔ c ≤ 0) := by
  have hm : momentum5mScore CONFIG c =
      if 2 ≤ c ∧ c ≤ 50 then 20 + min c 20 else if 0 < c then 10 else 0 := by
    simp only [momentum5mScore, CONFIG, ge_iff_le]
  rw [hm]
  split_ifs with h1 h2
  · have h2le : (2 : ℚ) ≤ min c 20 := le_min h1.1 (by norm_num)
    have hle : min c 20 ≤ 20 := min_le_right c 20
    refine ⟨fun _ => ⟨rfl, by linarith, by linarith⟩,
      iff_of_false (by linarith) ?_, iff_of_false (by linarith) ?_⟩
    · rintro ⟨_, hn⟩
      exact hn h1
    · intro hc0
      linarith [h1.1]
  · refine ⟨fun hr => absurd hr h1, iff_of_true rfl ⟨h2, h1⟩,
      iff_of_false (by norm_num) ?_⟩
    intro hc0
    linarith
  · push_neg at h2
    refine ⟨fun hr => absurd hr h1, iff_of_false (by norm_num) ?_, iff_of_true rfl h2⟩
    rintro ⟨hc0, _⟩
    linarith

/-- Witness for `momentum5mScore_spec`: at c = 30 (inside [2, 50]) the
contribution is `20 + min(30, 20) = 40`, the cap. -/
theorem momentum5mScore_spec_witness :
    momentum5mScore CONFIG 30 = 20 + min (30 : ℚ) 20 ∧
      22 ≤ momentum5mScore CONFIG 30 ∧ momentum5mScore CONFIG 30 ≤ 40 :=
  (momentum5mScore_spec 30).1 (by norm_num)

/-- The caller's peak write-back in `checkPositions`
(`src/meme-scalp.js`, lines 272-278): `if (exitCheck.newPeak)
position.peakPrice = exitCheck.newPeak`.  The JavaScript truthiness test
skips the write when `newPeak` is absent or `0`. -/
def applyPeakUpdate (position : Position) (exitCheck : ExitCheck) : Position :=
  match exitCheck.newPeak with
  | none => position
  | some p => if p = 0 then position else { position with peakPrice := p }

/-- One evaluation of a position by `checkPositions`: run `checkExit` and
apply the caller's peak write-back. -/
def tick (cfg : Config) (position : Position) (now : ℤ) (currentPrice : ℚ) : Position :=
  applyPeakUpdate position (checkExit cfg position now currentPrice)

/-- C8 counterexample: with entry and peak at 100 and the price at 110, the
take-profit exit fires (+10% ≥ 5%), `checkExit` returns no `newPeak`, and
the write-back leaves `peakPrice = 100` instead of `max(100, 110) = 110` —
so the peak is not updated on a cycle where an exit fires. -/
theorem tick_peak_on_exit_cex :
    (checkExit CONFIG ⟨100, 0, 100⟩ 0 110).shouldExit = true ∧
    (tick CONFIG ⟨100, 0, 100⟩ 0 110).peakPrice = 100 ∧
    max (100 : ℚ) 110 ≠ 100 := by
  refine ⟨?_, ?_, by norm_num⟩
  · norm_num [checkExit, CONFIG]
  · norm_num [tick, applyPeakUpdate, checkExit, CONFIG]

/-- C8 amended: on an evaluation where no exit fires, the peak is written
back as `max(peak, current)`; on an evaluation where an exit fires, the
peak is left unchanged (the source returns no `newPeak` there).  In both
cases `peakPrice` is monotonically non-decreasing across successive ticks
of the same position. -/
theorem tick_peak_spec (cfg : Config) (position : Position) (now : ℤ)
    (currentPrice : ℚ) (hpk : 0 < position.peakPrice) :
    ((checkExit cfg position now currentPrice).shouldExit = false →
      (tick cfg position now currentPrice).peakPrice = max position.peakPrice currentPrice) ∧
    ((checkExit cfg position now currentPrice).shouldExit = true →
      (tick cfg position now currentPrice).peakPrice = position.peakPrice) ∧
    position.peakPrice ≤ (tick cfg position now currentPrice).peakPrice := by
  have hne : ¬ position.peakPrice = 0 := ne_of_gt hpk
  have hmax : ¬ max position.peakPrice currentPrice = 0 := by
    intro h
    have := le_max_left position.peakPrice currentPrice
    rw [h] at this
    exact absurd (lt_of_lt_of_le hpk this) (lt_irrefl 0)
  unfold tick applyPeakUpdate checkExit
  simp only [hne, if_false]
  split_ifs with h1 h2 h3 h4 <;>
    simp_all [max_def] <;>
      split_ifs <;> simp_all <;> linarith

/-- Witness for `tick_peak_spec`: a position with entry 100, peak 100 and
current price 102 fires no exit (at `now = 0`), so the peak is written back
as `max(100, 102) = 102` and does not decrease. -/
theorem tick_peak_spec_witness :
    ((checkExit CONFIG ⟨100, 0, 100⟩ 0 102).shouldExit = false →
      (tick CONFIG ⟨100, 0, 100⟩ 0 102).peakPrice = max (100 : ℚ) 102) ∧
    ((checkExit CONFIG ⟨100, 0, 100⟩ 0 102).shouldExit = true →
      (tick CONFIG ⟨100, 0, 100⟩ 0 102).peakPrice = 100) ∧
    (100 : ℚ) ≤ (tick CONFIG ⟨100, 0, 100⟩ 0 102).peakPrice :=
  tick_peak_spec CONFIG ⟨100, 0, 100⟩ 0 102 (by norm_num)

/-- A swap quote as consumed by `getRealSlippageCost`: the collaborator's
error flag (JavaScript `quote.error` truthiness), its price impact
percentage, and the quoted output amount. -/
structure Quote where
  error : Bool
  priceImpactPct : ℚ
  outAmount : ℕ
  deriving DecidableEq

/-- The data of a successful `getRealSlippageCost` result. -/
structure SlippageInfo where
  buySlippage : ℚ
  sellSlippage : ℚ
  totalRoundTrip : ℚ
  tokensForAmount : ℕ
  deriving DecidableEq

/-- `getRealSlippageCost` from `src/strategies/meme-scalp.js`
(lines 213-257), with the two Jupiter quote responses as inputs; `none`
models the `{ success: false }` returns (missing route on either leg).
Total round-trip cost is the sum of the absolute price impacts of the two
legs. -/
def getRealSlippageCost (buyQuote sellQuote : Quote) : Option SlippageInfo :=
  if buyQuote.error then none
  else
    let buyPriceImpact := buyQuote.priceImpactPct
    let tokensReceived := buyQuote.outAmount
    if sellQuote.error then none
    else
      let sellPriceImpact := sellQuote.priceImpactPct
      let totalSlippage := |buyPriceImpact| + |sellPriceImpact|
      some ⟨buyPriceImpact, sellPriceImpact, totalSlippage, tokensReceived⟩

/-- The profit buffer hard-coded in `scan`
(`src/strategies/meme-scalp.js`, line 481). -/
def minProfitBuffer : ℚ := -2

/-- The per-candidate slippage gate of `scan`
(`src/strategies/meme-scalp.js`, lines 463-494): a candidate whose quotes
fail is skipped; otherwise it is admitted unless
`priceChange5m - totalRoundTrip < buffer`. -/
def slippageGateAdmits (buffer : ℚ) (priceChange5m : ℚ) (buyQuote sellQuote : Quote) : Bool :=
  match getRealSlippageCost buyQuote sellQuote with
  | none => false
  | some slippageCheck =>
    let expectedProfit := priceChange5m
    let totalCost := slippageCheck.totalRoundTrip
    let netExpected := expectedProfit - totalCost
    if netExpected < buffer then false else true

/-- C3: with both quote legs succeeding, the gate admits a candidate iff
its 5-minute momentum minus the total round-trip cost (the sum of the
absolute price impacts of the two legs) is at least the profit buffer; the
buffer used by `scan` is -2; and on the worked example (buy impact 1.2%,
sell impact 0.8%, momentum 2%) the candidate is admitted at buffer -2 but
rejected at buffer 0.5. -/
theorem slippageGate_spec :
    (∀ (buffer priceChange5m : ℚ) (buyQuote sellQuote : Quote),
      buyQuote.error = false → sellQuote.error = false →
      (slippageGateAdmits buffer priceChange5m buyQuote sellQuote = true ↔
        buffer ≤ priceChange5m -
          (|buyQuote.priceImpactPct| + |sellQuote.priceImpactPct|))) ∧
    minProfitBuffer = -2 ∧
    (getRealSlippageCost ⟨false, 12/10, 7⟩ ⟨false, 8/10, 0⟩ =
      some ⟨12/10, 8/10, 2, 7⟩) ∧
    slippageGateAdmits (-2) 2 ⟨false, 12/10, 7⟩ ⟨false, 8/10, 0⟩ = true ∧
    slippageGateAdmits (1/2) 2 ⟨false, 12/10, 7⟩ ⟨false, 8/10, 0⟩ = false := by
  refine ⟨?_, rfl, ?_, ?_, ?_⟩
  · intro buffer pc bq sq hb hs
    simp only [slippageGateAdmits, getRealSlippageCost, hb, hs, if_false,
      Bool.false_eq_true]
    split_ifs with h
    · simp only [Bool.false_eq_true, false_iff, not_le]
      linarith
    · simp only [true_iff]
      linarith [not_lt.mp h]
  · have h1 : |(6/5 : ℚ)| = 6/5 := abs_of_nonneg (by norm_num)
    have h2 : |(4/5 : ℚ)| = 4/5 := abs_of_nonneg (by norm_num)
    norm_num [getRealSlippageCost, h1, h2]
  · have h1 : |(6/5 : ℚ)| = 6/5 := abs_of_nonneg (by norm_num)
    have h2 : |(4/5 : ℚ)| = 4/5 := abs_of_nonneg (by norm_num)
    norm_num [slippageGateAdmits, getRealSlippageCost, h1, h2]
  · have h1 : |(6/5 : ℚ)| = 6/5 := abs_of_nonneg (by norm_num)
    have h2 : |(4/5 : ℚ)| = 4/5 := abs_of_nonneg (by norm_num)
    norm_num [slippageGateAdmits, getRealSlippageCost, h1, h2]

/-- Witness for `slippageGate_spec`: at buffer 0, momentum 3 and two
impact-1% legs, the gate admits (net 1% ≥ 0). -/
theorem slippageGate_spec_witness :
    slippageGateAdmits 0 3 ⟨false, 1, 0⟩ ⟨false, 1, 0⟩ = true :=
  (slippageGate_spec.1 0 3 ⟨false, 1, 0⟩ ⟨false, 1, 0⟩ rfl rfl).mpr (by norm_num)

/-- The module-level `marketRegimeCache`
(`src/strategies/meme-scalp.js`, lines 121-125). -/
structure RegimeCache where
  sol1hChange : ℚ
  sol5mChange : ℚ
  lastUpdate : ℤ
  deriving DecidableEq

/-- Outcome of the SOL price fetch inside `checkMarketRegime`: the request
threw, returned no usable pair, or returned a pair with the two price
changes. -/
inductive RegimeFetch where
  | throws
  | noPair
  | pair (sol1h sol5m : ℚ)
  deriving DecidableEq

/-- The result object of `checkMarketRegime`. -/
structure RegimeResult where
  canTrade : Bool
  sol1h : ℚ
  sol5m : ℚ
  deriving DecidableEq

/-- The floor checks at the end of `checkMarketRegime`
(`src/strategies/meme-scalp.js`, lines 163-190), evaluated on the cache in
effect. -/
def regimeVerdict (cfg : Config) (cache : RegimeCache) : RegimeResult :=
  if cache.sol1hChange < cfg.minSol1hChange then
    ⟨false, cache.sol1hChange, cache.sol5mChange⟩
  else if cache.sol5mChange < cfg.minSol5mChange then
    ⟨false, cache.sol1hChange, cache.sol5mChange⟩
  else
    ⟨true, cache.sol1hChange, cache.sol5mChange⟩

/-- `checkMarketRegime` from `src/strategies/meme-scalp.js`
(lines 131-191).  When the cache is stale the source fetches SOL data: a
thrown fetch returns fail-open (`canTrade: true`) immediately; a response
with no usable pair leaves the cache unchanged; a usable pair overwrites
the cache.  The second component is the cache after the call. -/
def checkMarketRegime (cfg : Config) (cache : RegimeCache) (now : ℤ)
    (fetch : RegimeFetch) : RegimeResult × RegimeCache :=
  if ¬ cfg.marketRegimeEnabled then (⟨true, 0, 0⟩, cache)
  else
    let cacheValid := now - cache.lastUpdate < cfg.regimeCacheSecs * 1000
    if cacheValid then (regimeVerdict cfg cache, cache)
    else
      match fetch with
      | .throws => (⟨true, 0, 0⟩, cache)
      | .noPair => (regimeVerdict cfg cache, cache)
      | .pair sol1h sol5m =>
        let cache2 : RegimeCache := ⟨sol1h, sol5m, now⟩
        (regimeVerdict cfg cache2, cache2)

/-- A scored candidate as built by `scan`; only the fields the embedded
gates read. -/
structure Opportunity where
  token : String
  tokenAddress : String
  priceChange5m : ℚ
  score : ℚ
  deriving DecidableEq

/-- The market-regime early return of `scan`
(`src/strategies/meme-scalp.js`, lines 307-314): when the regime says not
to trade, `scan` returns the empty list; otherwise the rest of the pipeline
produces the candidates. -/
def scanRegimeGate (regime : RegimeResult) (pipeline : List Opportunity) :
    List Opportunity :=
  if regime.canTrade then pipeline else []

/-- C7: with the regime filter enabled and fresh data in effect,
`checkMarketRegime` reports `canTrade = false` iff the reference asset's
1-hour change or its 5-minute change falls below its configured floor, and
`scan` then returns the empty list; if the regime fetch itself throws, the
check fails open with `canTrade = true`. -/
theorem marketRegime_spec :
    (∀ (cfg : Config) (cache : RegimeCache) (now : ℤ) (sol1h sol5m : ℚ),
      cfg.marketRegimeEnabled = true →
      ¬ now - cache.lastUpdate < cfg.regimeCacheSecs * 1000 →
      ((checkMarketRegime cfg cache now (.pair sol1h sol5m)).1.canTrade = false ↔
        (sol1h < cfg.minSol1hChange ∨ sol5m < cfg.minSol5mChange))) ∧
    (∀ (cfg : Config) (cache : RegimeCache) (now : ℤ),
      cfg.marketRegimeEnabled = true →
      now - cache.lastUpdate < cfg.regimeCacheSecs * 1000 →
      ((checkMarketRegime cfg cache now .throws).1.canTrade = false ↔
        (cache.sol1hChange < cfg.minSol1hChange ∨
          cache.sol5mChange < cfg.minSol5mChange))) ∧
    (∀ (cfg : Config) (cache : RegimeCache) (now : ℤ),
      cfg.marketRegimeEnabled = true →
      ¬ now - cache.lastUpdate < cfg.regimeCacheSecs * 1000 →
      (checkMarketRegime cfg cache now .throws).1.canTrade = true) ∧
    (∀ (cfg : Config) (cache : RegimeCache) (now : ℤ) (fetch : RegimeFetch)
        (pipeline : List Opportunity),
      (checkMarketRegime cfg cache now fetch).1.canTrade = false →
      scanRegimeGate (checkMarketRegime cfg cache now fetch).1 pipeline = []) := by
  refine ⟨?_, ?_, ?_, ?_⟩
  · intro cfg cache now sol1h sol5m hen hstale
    simp only [checkMarketRegime, hen, not_true, if_false, if_neg hstale]
    unfold regimeVerdict
    split_ifs with h1 h2 <;> simp_all
  · intro cfg cache now hen hvalid
    simp only [checkMarketRegime, hen, not_true, if_false, if_pos hvalid]
    unfold regimeVerdict
    split_ifs with h1 h2 <;> simp_all
  · intro cfg cache now hen hstale
    simp [checkMarketRegime, hen, if_neg hstale]
  · intro cfg cache now fetch pipeline hfalse
    simp [scanRegimeGate, hfalse]

/-- Witness for `marketRegime_spec`: with stale cache and a fetched SOL
pair at 1h = -3 (below the -2 floor), trading is rejected; a thrown fetch
in the same situation fails open. -/
theorem marketRegime_spec_witness :
    ((checkMarketRegime CONFIG ⟨0, 0, 0⟩ 1000000 (.pair (-3) 0)).1.canTrade = false ↔
      ((-3 : ℚ) < CONFIG.minSol1hChange ∨ (0 : ℚ) < CONFIG.minSol5mChange)) ∧
    (checkMarketRegime CONFIG ⟨0, 0, 0⟩ 1000000 .throws).1.canTrade = true :=
  ⟨marketRegime_spec.1 CONFIG ⟨0, 0, 0⟩ 1000000 (-3) 0 rfl (by norm_num [CONFIG]),
    marketRegime_spec.2.2.1 CONFIG ⟨0, 0, 0⟩ 1000000 rfl (by norm_num [CONFIG])⟩

/-- The rule-matching test of the loop in `getSlippage`: `liquidityUsd <=
rule.maxLiquidity`, where the `Infinity` bound (`none`) compares true. -/
def slippageRuleMatches (liquidityUsd : ℚ) (rule : SlippageRule) : Bool :=
  match rule.maxLiquidity with
  | none => true
  | some bound => liquidityUsd ≤ bound

/-- The loop of `getSlippage` (`src/strategies/meme-scalp.js`,
lines 196-203): return the slippage of the first matching rule; `none`
models falling through the whole loop to the trailing default. -/
def getSlippageGo (rules : List SlippageRule) (liquidityUsd : ℚ) : Option ℚ :=
  match rules with
  | [] => none
  | rule :: rest =>
    if slippageRuleMatches liquidityUsd rule then some rule.slippage
    else getSlippageGo rest liquidityUsd

/-- `getSlippage` from `src/strategies/meme-scalp.js` (lines 196-203): the
loop over `CONFIG.slippageRules` followed by the trailing `return 2`. -/
def getSlippage (liquidityUsd : ℚ) : ℚ :=
  (getSlippageGo CONFIG.slippageRules liquidityUsd).getD 2

/-- C10: `getSlippage` resolves to the first rule whose bound admits the
input (the closed form below), so the trailing default is unreachable (the
loop always returns), the result is always one of 5, 3.5, 2.5, 2, and the
function is antitone: more liquidity never gets more slippage. -/
theorem getSlippage_spec :
    (∀ L : ℚ, getSlippage L =
      if L ≤ 50000 then 5 else if L ≤ 100000 then 7/2
      else if L ≤ 200000 then 5/2 else 2) ∧
    (∀ L : ℚ, (getSlippageGo CONFIG.slippageRules L).isSome = true) ∧
    (∀ L : ℚ, getSlippage L = 5 ∨ getSlippage L = 7/2 ∨ getSlippage L = 5/2 ∨
      getSlippage L = 2) ∧
    (∀ a b : ℚ, a ≤ b → getSlippage b ≤ getSlippage a) := by
  have hform : ∀ L : ℚ, getSlippage L =
      if L ≤ 50000 then 5 else if L ≤ 100000 then 7/2
      else if L ≤ 200000 then 5/2 else 2 := by
    intro L
    simp only [getSlippage, getSlippageGo, CONFIG, slippageRuleMatches,
      decide_eq_true_eq]
    split_ifs <;> rfl
  refine ⟨hform, ?_, ?_, ?_⟩
  · intro L
    simp only [getSlippageGo, CONFIG, slippageRuleMatches, decide_eq_true_eq]
    split_ifs <;> rfl
  · intro L
    rw [hform]
    split_ifs <;> tauto
  · intro a b hab
    rw [hform, hform]
    split_ifs <;> linarith

/-- Witness for `getSlippage_spec`: liquidity 60000 ≤ 150000, and the
slippage tiers are antitone there (2.5 ≤ 3.5). -/
theorem getSlippage_spec_witness :
    getSlippage 150000 ≤ getSlippage 60000 :=
  getSlippage_spec.2.2.2 60000 150000 (by norm_num)

/-- The position fields of `src/meme-scalp.js` that `executeSell` reads. -/
structure PosRec where
  id : String
  tokenAddress : String
  entryPrice : ℚ
  size : ℚ
  deriving DecidableEq

/-- A closed-trade record as appended by the paper branch of `executeSell`
(`src/meme-scalp.js`, lines 195-206). -/
structure ClosedTrade where
  position : PosRec
  exitPrice : ℚ
  displayExitPrice : ℚ
  exitTime : ℤ
  pnlPct : ℚ
  pnlUsd : ℚ
  reason : String
  deriving DecidableEq

/-- The mutable session state of `src/meme-scalp.js` (lines 39-45), plus
the module-level `recentExits` map (line 53) and the strategy's
`tokenLossMemory` map, both as association lists. -/
structure ScalperState where
  paperBalance : ℚ
  positions : List PosRec
  closedTrades : List ClosedTrade
  recentExits : List (String × ℤ)
  lossMem : List (String × LossRecord)
  deriving DecidableEq

/-- `CONFIG.simulatedExitSlippage` in `src/meme-scalp.js` (line 34). -/
def simulatedExitSlippage : ℚ := 2/100

/-- Lookup in an association-list map (`Map.get`). -/
def lookupRecord (mem : List (String × LossRecord)) (addr : String) :
    Option LossRecord :=
  (mem.find? (fun e => e.1 == addr)).map (fun e => e.2)

/-- `Map.set` on an association-list map. -/
def setRecord (mem : List (String × LossRecord)) (addr : String)
    (r : LossRecord) : List (String × LossRecord) :=
  mem.filter (fun e => !(e.1 == addr)) ++ [(addr, r)]

/-- `recordTokenLoss` lifted to the whole `tokenLossMemory` map. -/
def recordTokenLossMap (mem : List (String × LossRecord)) (addr : String)
    (now : ℤ) : List (String × LossRecord) :=
  setRecord mem addr (recordTokenLoss (lookupRecord mem addr) now)

/-- `recentExits.set(addr, Date.now())` in `src/meme-scalp.js`
(line 210). -/
def setExitTime (mem : List (String × ℤ)) (addr : String) (now : ℤ) :
    List (String × ℤ) :=
  mem.filter (fun e => !(e.1 == addr)) ++ [(addr, now)]

/-- The paper-mode branch of `executeSell` in `src/meme-scalp.js`
(lines 176-221): apply simulated exit slippage, credit
`size + pnlUsd` back to the paper balance, append the closed trade, remove
the position by id, stamp the 30-minute exit cooldown, and record a token
loss when the trade lost. -/
def executeSellPaper (st : ScalperState) (position : PosRec) (reason : String)
    (currentPrice : ℚ) (now : ℤ) : ScalperState :=
  let slippageAdjustedExit := currentPrice * (1 - simulatedExitSlippage)
  let pnlPct := (slippageAdjustedExit - position.entryPrice) / position.entryPrice * 100
  let pnlUsd := position.size * (pnlPct / 100)
  let closedTrade : ClosedTrade :=
    ⟨position, slippageAdjustedExit, currentPrice, now, pnlPct, pnlUsd, reason⟩
  { paperBalance := st.paperBalance + position.size + pnlUsd
    positions := st.positions.filter (fun p => !(p.id == position.id))
    closedTrades := st.closedTrades ++ [closedTrade]
    recentExits := setExitTime st.recentExits position.tokenAddress now
    lossMem :=
      if pnlPct < 0 then recordTokenLossMap st.lossMem position.tokenAddress now
      else st.lossMem }

/-- The realized USD P&L that the paper branch of `executeSell` credits
for a position sold at `currentPrice` (`src/meme-scalp.js`,
lines 178-183). -/
def sellPnlUsd (position : PosRec) (currentPrice : ℚ) : ℚ :=
  let slippageAdjustedExit := currentPrice * (1 - simulatedExitSlippage)
  let pnlPct := (slippageAdjustedExit - position.entryPrice) / position.entryPrice * 100
  position.size * (pnlPct / 100)

/-- C9 counterexample: selling the same position record twice (balance 100,
entry 1, size 4, price 2) leaves the paper balance at 115.68 after the
replay instead of the 107.84 reached after the first sell — the replay
credits `size + pnlUsd` a second time, so the realized P&L is counted
twice, not once. -/
theorem executeSell_replay_cex :
    (executeSellPaper
        (executeSellPaper ⟨100, [⟨"meme_1", "tok", 1, 4⟩], [], [], []⟩
          ⟨"meme_1", "tok", 1, 4⟩ "TAKE_PROFIT" 2 0)
        ⟨"meme_1", "tok", 1, 4⟩ "TAKE_PROFIT" 2 0).paperBalance ≠
      (executeSellPaper ⟨100, [⟨"meme_1", "tok", 1, 4⟩], [], [], []⟩
        ⟨"meme_1", "tok", 1, 4⟩ "TAKE_PROFIT" 2 0).paperBalance := by
  norm_num [executeSellPaper, simulatedExitSlippage]

/-- C9 amended: replaying the same closed-trade record through the paper
ledger is idempotent on the open-position set (the filter removes nothing
the second time) but not on the balance: each processing, including the
replay, adds `size + pnlUsd` again, so the realized P&L of the replayed
record is counted twice in the aggregate balance rather than once. -/
theorem executeSell_replay_spec (st : ScalperState) (position : PosRec)
    (reason : String) (currentPrice : ℚ) (now : ℤ) :
    (executeSellPaper st position reason currentPrice now).paperBalance =
      st.paperBalance + position.size + sellPnlUsd position currentPrice ∧
    (executeSellPaper (executeSellPaper st position reason currentPrice now)
        position reason currentPrice now).paperBalance =
      (executeSellPaper st position reason currentPrice now).paperBalance +
        position.size + sellPnlUsd position currentPrice ∧
    (executeSellPaper (executeSellPaper st position reason currentPrice now)
        position reason currentPrice now).positions =
      (executeSellPaper st position reason currentPrice now).positions := by
  refine ⟨rfl, rfl, ?_⟩
  simp [executeSellPaper, List.filter_filter]

/-- Substring test (JavaScript `String.prototype.includes`). -/
def strContains (s pat : String) : Bool :=
  decide (pat.toList <:+: s.toList)

/-- The slippage-signature test of `executeSwapNativeSolana`
(`src/core/executor.js`, lines 72-74). -/
def isSlippageError (message : String) : Bool :=
  strContains message "0x1788" || strContains message "Slippage" ||
    strContains message "ExceededSlippage"

/-- `MAX_RETRIES` in `executeSwapNativeSolana`
(`src/core/executor.js`, line 60). -/
def MAX_RETRIES : ℕ := 3

/-- Result of one `signAndSendRawTransaction` submission; the collaborator
catches its own exceptions and returns `{ success, signature | error }`
(`src/core/solana-wallet.js`, lines 145-177). -/
inductive SubmitResult where
  | ok (signature : String)
  | err (message : String)
  deriving DecidableEq

/-- The collaborators of `executeSwapNativeSolana`, indexed by attempt
number: the wallet submission outcome for the transaction in flight on
each attempt, whether a `retryContext` with a `refreshQuote` function was
supplied, and whether `refreshQuote` succeeds (`none` models a throw,
which the source catches). -/
structure ExecEnv where
  submit : ℕ → SubmitResult
  hasRefreshQuote : Bool
  refreshQuote : ℕ → Option Unit

/-- Observable effects of `executeSwapNativeSolana`, in order: a wallet
submission, the fixed 1000 ms backoff (`setTimeout(r, 1000)`), and a
`refreshQuote` call for a brand-new quote. -/
inductive ExecEvent where
  | submitAttempt (n : ℕ)
  | backoffDelayMs (ms : ℕ)
  | refreshQuoteCall (n : ℕ)
  deriving DecidableEq

/-- The value returned by `executeSwapNativeSolana` (the
`{ success, txHash | error }` object). -/
structure SwapOutcome where
  success : Bool
  txHash : Option String
  error : Option String
  deriving DecidableEq

/-- `executeSwapNativeSolana` from `src/core/executor.js` (lines 59-95),
with its effect trace: submit; on failure, retry with a fresh quote after
the fixed backoff only when the error message carries a slippage
signature, the attempt count is below `MAX_RETRIES`, and a `refreshQuote`
collaborator exists; a failed `refreshQuote` is caught and the failure
result is returned; every other failure returns `{ success: false }`
immediately.  The function is total: all collaborator exceptions are
values, matching the source's catch-all handlers. -/
def executeSwapNativeSolana (env : ExecEnv) (attempt : ℕ) :
    SwapOutcome × List ExecEvent :=
  match env.submit attempt with
  | .ok sig => (⟨true, some sig, none⟩, [.submitAttempt attempt])
  | .err msg =>
    if h : isSlippageError msg = true ∧ attempt < MAX_RETRIES ∧
        env.hasRefreshQuote = true then
      match env.refreshQuote attempt with
      | some _ =>
        let rest := executeSwapNativeSolana env (attempt + 1)
        (rest.1, .submitAttempt attempt :: .backoffDelayMs 1000 ::
          .refreshQuoteCall attempt :: rest.2)
      | none =>
        (⟨false, none, some msg⟩,
          [.submitAttempt attempt, .backoffDelayMs 1000, .refreshQuoteCall attempt])
    else
      (⟨false, none, some msg⟩, [.submitAttempt attempt])
termination_by MAX_RETRIES - attempt
decreasing_by
  have := h.2.1
  omega

/-- Number of wallet submissions in an effect trace. -/
def numSubmitAttempts (events : List ExecEvent) : ℕ :=
  (events.filter fun e =>
    match e with | .submitAttempt _ => true | _ => false).length

theorem execSwap_submit_bound (k : ℕ) :
    ∀ (env : ExecEnv) (attempt : ℕ), MAX_RETRIES - attempt ≤ k →
      numSubmitAttempts (executeSwapNativeSolana env attempt).2 ≤ k + 1 := by
  induction k with
  | zero =>
    intro env attempt hk
    have hnr : ¬ attempt < MAX_RETRIES := by omega
    rcases henv : env.submit attempt with sig | msg
    · rw [executeSwapNativeSolana]
      simp [henv, numSubmitAttempts]
    · rw [executeSwapNativeSolana]
      simp only [henv]
      rw [dif_neg (fun hc => hnr hc.2.1)]
      simp [numSubmitAttempts]
  | succ k ih =>
    intro env attempt hk
    rcases henv : env.submit attempt with sig | msg
    · rw [executeSwapNativeSolana]
      simp [henv, numSubmitAttempts]
    · by_cases hc : isSlippageError msg = true ∧ attempt < MAX_RETRIES ∧
        env.hasRefreshQuote = true
      · rcases hrq : env.refreshQuote attempt with _ | u
        · rw [executeSwapNativeSolana]
          simp only [henv]
          rw [dif_pos hc]
          simp [hrq, numSubmitAttempts]
        · rw [executeSwapNativeSolana]
          simp only [henv]
          rw [dif_pos hc]
          have hrec := ih env (attempt + 1) (by omega)
          simp only [hrq]
          simp only [numSubmitAttempts, List.filter, List.length] at hrec ⊢
          omega
      · rw [executeSwapNativeSolana]
        simp only [henv]
        rw [dif_neg hc]
        simp [numSubmitAttempts]

theorem execSwap_error_shape (k : ℕ) :
    ∀ (env : ExecEnv) (attempt : ℕ), MAX_RETRIES - attempt ≤ k →
      (executeSwapNativeSolana env attempt).1.success = false →
      (executeSwapNativeSolana env attempt).1.error.isSome = true := by
  induction k with
  | zero =>
    intro env attempt hk
    have hnr : ¬ attempt < MAX_RETRIES := by omega
    rcases henv : env.submit attempt with sig | msg
    · rw [executeSwapNativeSolana]
      simp [henv]
    · rw [executeSwapNativeSolana]
      simp only [henv]
      rw [dif_neg (fun hc => hnr hc.2.1)]
      simp
  | succ k ih =>
    intro env attempt hk
    rcases henv : env.submit attempt with sig | msg
    · rw [executeSwapNativeSolana]
      simp [henv]
    · by_cases hc : isSlippageError msg = true ∧ attempt < MAX_RETRIES ∧
        env.hasRefreshQuote = true
      · rcases hrq : env.refreshQuote attempt with _ | u
        · rw [executeSwapNativeSolana]
          simp only [henv]
          rw [dif_pos hc]
          simp [hrq]
        · rw [executeSwapNativeSolana]
          simp only [henv]
          rw [dif_pos hc]
          simp only [hrq]
          exact ih env (attempt + 1) (by omega)
      · rw [executeSwapNativeSolana]
        simp only [henv]
        rw [dif_neg hc]
        simp

/-- C6: on a failed submission, `executeSwapNativeSolana` retries only
when the error message matches a slippage signature and the attempt count
is below the budget of `MAX_RETRIES = 3` total attempts, requesting a
brand-new quote via `refreshQuote` after the fixed 1000 ms backoff before
resubmitting; a non-slippage failure (and any failure on the final
attempt) returns a `success = false` result immediately with no further
events; at most 3 submissions ever happen from the entry attempt; and
every failure result carries an error value (the function returns rather
than throwing). -/
theorem executor_retry_spec :
    (∀ (env : ExecEnv) (attempt : ℕ) (msg : String),
      env.submit attempt = .err msg → isSlippageError msg = false →
      executeSwapNativeSolana env attempt =
        (⟨false, none, some msg⟩, [.submitAttempt attempt])) ∧
    (∀ (env : ExecEnv) (msg : String),
      env.submit MAX_RETRIES = .err msg →
      executeSwapNativeSolana env MAX_RETRIES =
        (⟨false, none, some msg⟩, [.submitAttempt MAX_RETRIES])) ∧
    (∀ (env : ExecEnv) (attempt : ℕ) (msg : String),
      env.submit attempt = .err msg → isSlippageError msg = true →
      attempt < MAX_RETRIES → env.hasRefreshQuote = true →
      env.refreshQuote attempt = some () →
      executeSwapNativeSolana env attempt =
        ((executeSwapNativeSolana env (attempt + 1)).1,
          .submitAttempt attempt :: .backoffDelayMs 1000 ::
            .refreshQuoteCall attempt ::
              (executeSwapNativeSolana env (attempt + 1)).2)) ∧
    (∀ env : ExecEnv,
      numSubmitAttempts (executeSwapNativeSolana env 1).2 ≤ MAX_RETRIES) ∧
    (∀ (env : ExecEnv) (attempt : ℕ),
      (executeSwapNativeSolana env attempt).1.success = false →
      (executeSwapNativeSolana env attempt).1.error.isSome = true) := by
  refine ⟨?_, ?_, ?_, ?_, ?_⟩
  · intro env attempt msg henv hslip
    rw [executeSwapNativeSolana]
    simp only [henv]
    rw [dif_neg (fun hc => by simp [hslip] at hc)]
  · intro env msg henv
    rw [executeSwapNativeSolana]
    simp only [henv]
    rw [dif_neg (fun hc => absurd hc.2.1 (lt_irrefl _))]
  · intro env attempt msg henv hslip hlt hhas hrq
    rw [executeSwapNativeSolana]
    simp only [henv]
    rw [dif_pos ⟨hslip, hlt, hhas⟩]
    simp only [hrq]
  · intro env
    have h := execSwap_submit_bound 2 env 1 (by decide)
    simpa [MAX_RETRIES] using h
  · intro env attempt
    exact execSwap_error_shape MAX_RETRIES env attempt (by omega)

/-- Witness for `executor_retry_spec`: a submission failing with the
non-slippage message "tx failed" and no retry context returns the failure
immediately after a single attempt. -/
theorem executor_retry_spec_witness :
    executeSwapNativeSolana
        ⟨fun _ => SubmitResult.err "tx failed", false, fun _ => none⟩ 1 =
      (⟨false, none, some "tx failed"⟩, [ExecEvent.submitAttempt 1]) :=
  executor_retry_spec.1 ⟨fun _ => SubmitResult.err "tx failed", false, fun _ => none⟩
    1 "tx failed" rfl (by decide)

end SolanaScalper
